import Mathlib

/-!
Shallow embedding of the TaskVault authentication subsystem (the "Login
Guard") and of the task-analytics aggregation.

Sources embedded:
* the drizzle schema (`users`, `otps`, `securityLogs`, `tasks` tables);
* `DatabaseStorage` (server/storage.ts): `getUserByEmail`,
  `updateFailedAttempts`, `lockUser`, `unlockUser`, `createOTP`,
  `getValidOTP`, `markOTPAsUsed`, `cleanupExpiredOTPs`, `logSecurityEvent`,
  `getTaskAnalytics`;
* `AuthService` (auth service module): `initiateLogin`, `verifyOTP`,
  `resendOTP`.

Modelling conventions:
* Time is `Nat` (milliseconds since epoch); each request is evaluated at a
  single instant `now`, standing for the `new Date()` / `Date.now()` calls
  made during one request.
* Database tables are Lean lists; a SQL `update ... where` is a `List.map`
  that rewrites matching rows; `select ... where` without `orderBy` is a
  `List.find?`; `insert` appends and bumps a serial id counter.
* Nullable columns carrying a default (`failedAttempts` default 0,
  `isLocked` default false, `isUsed` default false, `attempts` default 0)
  are modelled by their non-null value; the source's `user.failedAttempts || 0`
  then reads the value itself, and `user.lastFailedAttempt!.getTime()`
  (a non-null assertion) is modelled with `Option.getD 0`.
* `bcrypt.compare(password, storedHash)` is an external library call; it is
  modelled as string equality of the supplied password with the stored hash
  (hashing abstracted as the identity), which preserves exactly the
  match / mismatch distinction the control flow depends on.
* `crypto.randomInt` (OTP code generation) and the success of
  `sendOTPEmail` are nondeterministic inputs; they enter the model as
  explicit parameters (`otpCode`, `emailOk`).
* A thrown `Error` is an `Except.error` carrying an `AuthError` constructor;
  `AuthError.message` reproduces the JavaScript error message strings.
  Mutations performed before a `throw` are kept, so every operation returns
  its result together with the post-state: `(Except AuthError α) × DB`.
-/

namespace TaskVault

/-- Constants from the auth service module. -/
def SALT_ROUNDS : Nat := 12

def OTP_EXPIRY_MINUTES : Nat := 10

def MAX_OTP_ATTEMPTS : Nat := 3

def MAX_LOGIN_ATTEMPTS : Nat := 5

def LOCKOUT_DURATION_MINUTES : Nat := 30

/-- `LOCKOUT_DURATION_MINUTES * 60 * 1000` milliseconds, as computed in
`initiateLogin`. -/
def lockoutDurationMs : Nat := LOCKOUT_DURATION_MINUTES * 60 * 1000

/-- `OTP_EXPIRY_MINUTES * 60 * 1000` milliseconds, as computed in
`initiateLogin` and `resendOTP`. -/
def otpExpiryMs : Nat := OTP_EXPIRY_MINUTES * 60 * 1000

/-- A row of the `users` table (drizzle schema). `password` stores the
bcrypt hash. -/
structure Account where
  id : Nat
  email : String
  password : String
  firstName : Option String
  lastName : Option String
  profileImageUrl : Option String
  isLocked : Bool
  failedAttempts : Nat
  lastFailedAttempt : Option Nat
  lastLogin : Option Nat
  deriving Repr, DecidableEq

/-- A row of the `otps` table (drizzle schema). -/
structure OTPRec where
  id : Nat
  email : String
  code : String
  expiresAt : Nat
  isUsed : Bool
  attempts : Nat
  deriving Repr, DecidableEq

/-- A row of the `securityLogs` table (drizzle schema); `createdAt` is
omitted (never read by the embedded code). -/
structure SecurityLog where
  userId : Option Nat
  email : Option String
  action : String
  details : Option String
  success : Bool
  deriving Repr, DecidableEq

/-- A row of the `tasks` table (drizzle schema). -/
structure Task where
  id : Nat
  userId : Nat
  description : String
  isCompleted : Bool
  deriving Repr, DecidableEq

/-- The persistent state the Login Guard reads and writes: the `users`,
`otps` and `securityLogs` tables, plus the serial-id counter for `otps`. -/
structure DB where
  users : List Account
  otps : List OTPRec
  securityLogs : List SecurityLog
  nextOtpId : Nat
  deriving Repr, DecidableEq

/-- The error taxonomy: each constructor is one distinct `throw new Error(...)`
site of the auth service. -/
inductive AuthError where
  | invalidCredentials
  | accountLocked
  | userNotFound
  | invalidOrExpiredOTP
  | otpAttemptsExceeded
  | emailSendFailed
  deriving Repr, DecidableEq

/-- The JavaScript `Error` message attached at each throw site. -/
def AuthError.message : AuthError → String
  | .invalidCredentials => "Invalid credentials"
  | .accountLocked => "Account is locked due to too many failed attempts"
  | .userNotFound => "User not found"
  | .invalidOrExpiredOTP => "Invalid or expired OTP"
  | .otpAttemptsExceeded => "Maximum OTP attempts exceeded"
  | .emailSendFailed => "Failed to send verification email"

/-- Successful `initiateLogin` response: `{ message, email }`. -/
structure LoginOk where
  message : String
  email : String
  deriving Repr, DecidableEq

/-- Successful `verifyOTP` response: the minimal user profile returned for
session binding. -/
structure VerifyOk where
  id : Nat
  email : String
  firstName : Option String
  lastName : Option String
  profileImageUrl : Option String
  lastLogin : Option Nat
  deriving Repr, DecidableEq

/-- `bcrypt.compare(password, storedHash)`, abstracted: hashing is modelled
as the identity, so comparison is string equality. -/
def bcryptCompare (password storedHash : String) : Bool :=
  password == storedHash

/-- `DatabaseStorage.getUserByEmail`: `select from users where email = e`
(first matching row). -/
def getUserByEmail (db : DB) (email : String) : Option Account :=
  db.users.find? (fun u => u.email == email)

/-- `DatabaseStorage.updateFailedAttempts`: sets `failedAttempts` and
`lastFailedAttempt = new Date()` on the rows with this email. -/
def updateFailedAttempts (db : DB) (email : String) (attempts : Nat)
    (now : Nat) : DB :=
  { db with users := db.users.map (fun u =>
      if u.email == email then
        { u with failedAttempts := attempts, lastFailedAttempt := some now }
      else u) }

/-- `DatabaseStorage.lockUser`: sets `isLocked = true` on the rows with this
email. -/
def lockUser (db : DB) (email : String) : DB :=
  { db with users := db.users.map (fun u =>
      if u.email == email then { u with isLocked := true } else u) }

/-- `DatabaseStorage.unlockUser`: clears `isLocked`, `failedAttempts` and
`lastFailedAttempt` on the rows with this email. -/
def unlockUser (db : DB) (email : String) : DB :=
  { db with users := db.users.map (fun u =>
      if u.email == email then
        { u with isLocked := false, failedAttempts := 0,
                 lastFailedAttempt := none }
      else u) }

/-- The `storage.updateUser(user.id, {failedAttempts: 0, lastFailedAttempt:
null, lastLogin: new Date()})` call on the `verifyOTP` success path: an
update keyed by user id. -/
def updateUserLoginSuccess (db : DB) (id : Nat) (now : Nat) : DB :=
  { db with users := db.users.map (fun u =>
      if u.id == id then
        { u with failedAttempts := 0, lastFailedAttempt := none,
                 lastLogin := some now }
      else u) }

/-- `DatabaseStorage.createOTP`: inserts a row with serial id, the given
email / code / expiry, and the schema defaults `isUsed = false`,
`attempts = 0`. -/
def createOTP (db : DB) (email code : String) (expiresAt : Nat) : DB :=
  { db with
      otps := db.otps ++
        [{ id := db.nextOtpId, email := email, code := code,
           expiresAt := expiresAt, isUsed := false, attempts := 0 }],
      nextOtpId := db.nextOtpId + 1 }

/-- The row filter of `DatabaseStorage.getValidOTP`: matching email and
code, unused, and `expiresAt > now`. -/
def otpValidPred (email code : String) (now : Nat) (o : OTPRec) : Bool :=
  o.email == email && o.code == code && !o.isUsed && decide (now < o.expiresAt)

/-- `DatabaseStorage.getValidOTP`: first row with matching email and code
that is unused and not yet expired (`gt(otps.expiresAt, new Date())`). -/
def getValidOTP (db : DB) (email code : String) (now : Nat) : Option OTPRec :=
  db.otps.find? (otpValidPred email code now)

/-- `DatabaseStorage.markOTPAsUsed`: sets `isUsed = true` on the row with
this id. -/
def markOTPAsUsed (db : DB) (id : Nat) : DB :=
  { db with otps := db.otps.map (fun o =>
      if o.id == id then { o with isUsed := true } else o) }

/-- `DatabaseStorage.cleanupExpiredOTPs`: deletes the rows with
`expiresAt < now`. -/
def cleanupExpiredOTPs (db : DB) (now : Nat) : DB :=
  { db with otps := db.otps.filter (fun o => !decide (o.expiresAt < now)) }

/-- `DatabaseStorage.logSecurityEvent`: appends to the append-only
`securityLogs` table. -/
def logSecurityEvent (db : DB) (log : SecurityLog) : DB :=
  { db with securityLogs := db.securityLogs ++ [log] }

/-- The lockout gate at the top of `AuthService.initiateLogin` (the
`if (user.isLocked)` block): while the lockout window is open it logs an
`Account locked` event and throws `AccountLocked`; once the window has
elapsed it unlocks the account and lets the flow continue. -/
def lockoutCheck (db : DB) (user : Account) (email : String) (now : Nat) :
    (Except AuthError Unit) × DB :=
  if user.isLocked then
    if now < user.lastFailedAttempt.getD 0 + lockoutDurationMs then
      (Except.error AuthError.accountLocked,
        logSecurityEvent db
          { userId := some user.id, email := some email,
            action := "LOGIN_ATTEMPT", details := some "Account locked",
            success := false })
    else
      (Except.ok (), unlockUser db email)
  else (Except.ok (), db)

/-- `AuthService.initiateLogin`. `otpCode` stands for the value of
`generateOTPCode()` and `emailOk` for whether `sendOTPEmail` succeeds; both
are nondeterministic inputs of the request. -/
def initiateLogin (db : DB) (email password : String) (otpCode : String)
    (now : Nat) (emailOk : Bool) : (Except AuthError LoginOk) × DB :=
  match getUserByEmail db email with
  | none =>
      (Except.error AuthError.invalidCredentials,
        logSecurityEvent db
          { userId := none, email := some email, action := "LOGIN_ATTEMPT",
            details := some "User not found", success := false })
  | some user =>
      match lockoutCheck db user email now with
      | (Except.error e, db') => (Except.error e, db')
      | (Except.ok _, db') =>
          if !bcryptCompare password user.password then
            let newFailedAttempts := user.failedAttempts + 1
            let db₂ := updateFailedAttempts db' email newFailedAttempts now
            let db₃ :=
              if MAX_LOGIN_ATTEMPTS ≤ newFailedAttempts then
                lockUser db₂ email
              else db₂
            (Except.error AuthError.invalidCredentials,
              logSecurityEvent db₃
                { userId := some user.id, email := some email,
                  action := "LOGIN_ATTEMPT",
                  details := some ("Invalid password - attempt " ++
                    toString newFailedAttempts),
                  success := false })
          else
            let db₂ := createOTP db' email otpCode (now + otpExpiryMs)
            if !emailOk then (Except.error AuthError.emailSendFailed, db₂)
            else
              (Except.ok { message := "OTP sent to your email", email := email },
                logSecurityEvent db₂
                  { userId := some user.id, email := some email,
                    action := "OTP_SENT", details := some "OTP sent to email",
                    success := true })

/-- `AuthService.verifyOTP`. -/
def verifyOTP (db : DB) (email code : String) (now : Nat) :
    (Except AuthError VerifyOk) × DB :=
  let db₁ := cleanupExpiredOTPs db now
  match getUserByEmail db₁ email with
  | none => (Except.error AuthError.userNotFound, db₁)
  | some user =>
      match getValidOTP db₁ email code now with
      | none =>
          (Except.error AuthError.invalidOrExpiredOTP,
            logSecurityEvent db₁
              { userId := some user.id, email := some email,
                action := "OTP_VERIFICATION",
                details := some "Invalid or expired OTP", success := false })
      | some otp =>
          if MAX_OTP_ATTEMPTS ≤ otp.attempts then
            (Except.error AuthError.otpAttemptsExceeded,
              logSecurityEvent db₁
                { userId := some user.id, email := some email,
                  action := "OTP_VERIFICATION",
                  details := some "Maximum OTP attempts exceeded",
                  success := false })
          else
            let db₂ := markOTPAsUsed db₁ otp.id
            let db₃ := updateUserLoginSuccess db₂ user.id now
            (Except.ok
              { id := user.id, email := user.email,
                firstName := user.firstName, lastName := user.lastName,
                profileImageUrl := user.profileImageUrl,
                lastLogin := user.lastLogin },
              logSecurityEvent db₃
                { userId := some user.id, email := some email,
                  action := "LOGIN_SUCCESS",
                  details := some "Successful OTP verification",
                  success := true })

/-- `AuthService.resendOTP`. `otpCode` and `emailOk` as in `initiateLogin`. -/
def resendOTP (db : DB) (email : String) (otpCode : String) (now : Nat)
    (emailOk : Bool) : (Except AuthError String) × DB :=
  match getUserByEmail db email with
  | none => (Except.error AuthError.userNotFound, db)
  | some user =>
      let db₁ := createOTP db email otpCode (now + otpExpiryMs)
      if !emailOk then (Except.error AuthError.emailSendFailed, db₁)
      else
        (Except.ok "New OTP sent to your email",
          logSecurityEvent db₁
            { userId := some user.id, email := some email,
              action := "OTP_RESENT", details := some "OTP resent to email",
              success := true })

/-- The analytics record returned by `DatabaseStorage.getTaskAnalytics`. -/
structure Analytics where
  completed : Nat
  pending : Nat
  total : Nat
  deriving Repr, DecidableEq

/-- `DatabaseStorage.getTaskAnalytics`: selects the user's tasks, then
counts completed ones, pending ones, and all of them. -/
def getTaskAnalytics (tasks : List Task) (userId : Nat) : Analytics :=
  let userTasks := tasks.filter (fun t => t.userId == userId)
  { completed := (userTasks.filter (fun t => t.isCompleted)).length,
    pending := (userTasks.filter (fun t => !t.isCompleted)).length,
    total := userTasks.length }

end TaskVault

namespace TaskVault

/-! ## Helper lemmas about the list-level storage operations -/

/-- A row-rewriting update that does not change how the search predicate
evaluates lets `find?` return the rewritten hit. -/
theorem find?_map_pres {α : Type} (F : α → α) (p : α → Bool)
    (hF : ∀ x, p (F x) = p x) :
    ∀ (l : List α) (u : α), l.find? p = some u →
      (l.map F).find? p = some (F u) := by
  intro l
  induction l with
  | nil => intro u h; simp [List.find?] at h
  | cons a l ih =>
      intro u h
      by_cases ha : p a = true
      · rw [List.find?_cons_of_pos _ ha] at h
        injection h with h
        subst h
        rw [List.map_cons, List.find?_cons_of_pos _ (by rw [hF a]; exact ha)]
      · rw [List.find?_cons_of_neg _ ha] at h
        rw [List.map_cons, List.find?_cons_of_neg _ (by rw [hF a]; exact ha)]
        exact ih u h

/-- Filtering out rows that the search predicate rejects anyway does not
change the `find?` result. -/
theorem find?_filter_of_imp {α : Type} (p q : α → Bool)
    (h : ∀ x, p x = true → q x = true) :
    ∀ l : List α, (l.filter q).find? p = l.find? p := by
  intro l
  induction l with
  | nil => rfl
  | cons a l ih =>
      by_cases hq : q a = true
      · by_cases hp : p a = true
        · simp [List.filter_cons, hq, List.find?_cons, hp]
        · simp only [Bool.not_eq_true] at hp
          simp [List.filter_cons, hq, List.find?_cons, hp, ih]
      · have hp : p a = false := by
          cases hpa : p a with
          | false => rfl
          | true => exact absurd (h a hpa) hq
        simp only [Bool.not_eq_true] at hq
        simp [List.filter_cons, hq, List.find?_cons, hp, ih]

/-- `find?` succeeds on a list exactly when `any` holds on it. -/
theorem find?_isSome_eq_any {α : Type} (p : α → Bool) :
    ∀ l : List α, (l.find? p).isSome = l.any p := by
  intro l
  induction l with
  | nil => rfl
  | cons a l ih => cases ha : p a <;> simp [List.find?_cons, ha, ih]

/-- Splitting a list by a boolean predicate partitions its length. -/
theorem length_filter_add_length_filter_not {α : Type} (p : α → Bool) :
    ∀ l : List α,
      (l.filter p).length + (l.filter (fun x => !p x)).length = l.length := by
  intro l
  induction l with
  | nil => rfl
  | cons a l ih =>
      cases ha : p a <;> simp [List.filter_cons, ha] <;> omega

/-- The table projections untouched by each storage operation. -/
theorem users_cleanupExpiredOTPs (db : DB) (now : Nat) :
    (cleanupExpiredOTPs db now).users = db.users := rfl

theorem users_markOTPAsUsed (db : DB) (id : Nat) :
    (markOTPAsUsed db id).users = db.users := rfl

theorem users_logSecurityEvent (db : DB) (log : SecurityLog) :
    (logSecurityEvent db log).users = db.users := rfl

theorem otps_logSecurityEvent (db : DB) (log : SecurityLog) :
    (logSecurityEvent db log).otps = db.otps := rfl

/-- `getUserByEmail` is insensitive to the OTP and log tables. -/
theorem getUserByEmail_cleanup (db : DB) (now : Nat) (e : String) :
    getUserByEmail (cleanupExpiredOTPs db now) e = getUserByEmail db e := rfl

/-! ## C10 -/

/-- C10: for every task table and user, the analytics returned by
`getTaskAnalytics` satisfy `completed + pending = total`: the completed and
pending counts partition the user's task list. -/
theorem getTaskAnalytics_partition (tasks : List Task) (userId : Nat) :
    (getTaskAnalytics tasks userId).completed +
      (getTaskAnalytics tasks userId).pending =
      (getTaskAnalytics tasks userId).total := by
  simp only [getTaskAnalytics]
  exact length_filter_add_length_filter_not _ _

end TaskVault

namespace TaskVault

/-- The predicate-invariance fact used for every by-email row update: the
update functions never change the `email` column. -/
theorem emailPred_invariant (e : String) (G : Account → Account)
    (hG : ∀ x, (G x).email = x.email) :
    ∀ x : Account,
      ((if x.email == e then G x else x).email == e) = (x.email == e) := by
  intro x
  by_cases h : (x.email == e) = true
  · simp [h, hG]
  · simp only [Bool.not_eq_true] at h
    simp [h]

/-! ## C6 -/

/-- C6: `initiateLogin` with an unknown email fails with the same
`InvalidCredentials` error — same taxonomy kind and same message
("Invalid credentials") — as `initiateLogin` with a known email and a
wrong password, so the two runs are indistinguishable to the caller. -/
theorem initiateLogin_unknown_email_indistinguishable
    (db₁ db₂ : DB) (e₁ e₂ p₁ p₂ oc₁ oc₂ : String) (t₁ t₂ : Nat)
    (ok₁ ok₂ : Bool) (u : Account)
    (h1 : getUserByEmail db₁ e₁ = none)
    (h2 : getUserByEmail db₂ e₂ = some u)
    (hlock : u.isLocked = false)
    (hpw : bcryptCompare p₂ u.password = false) :
    (initiateLogin db₁ e₁ p₁ oc₁ t₁ ok₁).1 =
        Except.error AuthError.invalidCredentials ∧
    (initiateLogin db₂ e₂ p₂ oc₂ t₂ ok₂).1 =
        Except.error AuthError.invalidCredentials ∧
    AuthError.message AuthError.invalidCredentials = "Invalid credentials" := by
  refine ⟨?_, ?_, rfl⟩
  · simp [initiateLogin, h1]
  · simp [initiateLogin, h2, lockoutCheck, hlock, hpw]

/-! ## C7 -/

/-- C7: for a locked account whose lockout window has elapsed
(`lastFailedAttempt + LOCKOUT_DURATION ≤ now`), the lockout gate of
`initiateLogin` succeeds and hands the password check the unlocked state
(`failedAttempts = 0`, `isLocked = false`), and the call never fails with
`AccountLocked`. -/
theorem initiateLogin_expired_lockout_cleared
    (db : DB) (e p oc : String) (now : Nat) (ok : Bool) (u : Account) (s : Nat)
    (hu : getUserByEmail db e = some u)
    (hlock : u.isLocked = true)
    (hlast : u.lastFailedAttempt = some s)
    (helapsed : s + lockoutDurationMs ≤ now) :
    lockoutCheck db u e now = (Except.ok (), unlockUser db e) ∧
    getUserByEmail (unlockUser db e) e =
      some { u with isLocked := false, failedAttempts := 0,
                    lastFailedAttempt := none } ∧
    (initiateLogin db e p oc now ok).1 ≠ Except.error AuthError.accountLocked := by
  have hnot : ¬ (now < u.lastFailedAttempt.getD 0 + lockoutDurationMs) := by
    rw [hlast]
    simpa using helapsed
  have hchk : lockoutCheck db u e now = (Except.ok (), unlockUser db e) := by
    simp [lockoutCheck, hlock, hnot]
  have hu' : db.users.find? (fun x => x.email == e) = some u := hu
  have hmail : (u.email == e) = true := by simpa using List.find?_some hu'
  refine ⟨hchk, ?_, ?_⟩
  · have hfind := find?_map_pres
      (fun x => if x.email == e then
        { x with isLocked := false, failedAttempts := 0,
                 lastFailedAttempt := none } else x)
      (fun x => x.email == e)
      (emailPred_invariant e
        (fun x => { x with isLocked := false, failedAttempts := 0,
                           lastFailedAttempt := none })
        (fun x => rfl)) db.users u hu'
    simpa [getUserByEmail, unlockUser, hmail] using hfind
  · cases hpw : bcryptCompare p u.password <;> cases ok <;>
      simp [initiateLogin, hu, hchk, hpw]

/-! ## C9 -/

/-- C9: `verifyOTP` called when every challenge for this email and code is
expired (`expiresAt < now`) fails with `InvalidOrExpiredOTP` and leaves the
`users` table — hence every Account field — untouched. -/
theorem verifyOTP_expired_code_frame
    (db : DB) (e code : String) (now : Nat) (u : Account)
    (hu : getUserByEmail db e = some u)
    (hexp : ∀ o ∈ db.otps, o.email = e → o.code = code → o.expiresAt < now) :
    (verifyOTP db e code now).1 = Except.error AuthError.invalidOrExpiredOTP ∧
    ((verifyOTP db e code now).2).users = db.users := by
  have hnone : getValidOTP (cleanupExpiredOTPs db now) e code now = none := by
    unfold getValidOTP cleanupExpiredOTPs
    rw [List.find?_eq_none]
    intro o ho hpred
    have hmem : o ∈ db.otps := (List.mem_filter.mp ho).1
    simp only [otpValidPred, Bool.and_eq_true, beq_iff_eq, Bool.not_eq_true,
      decide_eq_true_eq] at hpred
    obtain ⟨⟨⟨he, hc⟩, -⟩, hlt⟩ := hpred
    exact absurd hlt (by have := hexp o hmem he hc; omega)
  have huser : getUserByEmail (cleanupExpiredOTPs db now) e = some u := hu
  constructor <;>
    simp only [verifyOTP, huser, hnone, logSecurityEvent,
      users_cleanupExpiredOTPs]

end TaskVault

namespace TaskVault

/-! ## C2: success of `verifyOTP` is equivalent to a live challenge -/

/-- A live challenge for `(email, code)` exists: some stored challenge has
the matching email and code, is unused, and is unexpired (`now < expiresAt`).
This is the right-hand side of the C2 equivalence. -/
def hasLiveOTP (db : DB) (email code : String) (now : Nat) : Bool :=
  db.otps.any (otpValidPred email code now)

/-- The opportunistic purge at the top of `verifyOTP` never deletes a row
that `getValidOTP` could return, so the lookup is insensitive to it. -/
theorem getValidOTP_cleanup (db : DB) (e code : String) (now : Nat) :
    getValidOTP (cleanupExpiredOTPs db now) e code now =
      getValidOTP db e code now := by
  unfold getValidOTP cleanupExpiredOTPs
  exact find?_filter_of_imp _ _
    (fun o h => by
      simp only [otpValidPred, Bool.and_eq_true, decide_eq_true_eq] at h
      simp only [Bool.not_eq_true', decide_eq_false_iff_not]
      omega)
    db.otps

/-- C2: for an existing account and a state whose challenges all carry
`attempts = 0` (the only reachable states, see C5), `verifyOTP` succeeds
exactly when some stored challenge for this email has a matching code, is
unused, and satisfies `now < expiresAt`; when no challenge satisfies all
three conditions it fails with `InvalidOrExpiredOTP` and no other error. -/
theorem verifyOTP_success_iff_live
    (db : DB) (e code : String) (now : Nat) (u : Account)
    (hu : getUserByEmail db e = some u)
    (hz : ∀ o ∈ db.otps, o.attempts = 0) :
    (hasLiveOTP db e code now = true →
      ((verifyOTP db e code now).1).isOk = true) ∧
    (hasLiveOTP db e code now = false →
      (verifyOTP db e code now).1 =
        Except.error AuthError.invalidOrExpiredOTP) := by
  have huser : getUserByEmail (cleanupExpiredOTPs db now) e = some u := hu
  have hclean := getValidOTP_cleanup db e code now
  constructor
  · intro hlive
    have hsome : (db.otps.find? (otpValidPred e code now)).isSome = true := by
      rw [find?_isSome_eq_any]
      exact hlive
    obtain ⟨o, ho⟩ := Option.isSome_iff_exists.mp hsome
    have hmem : o ∈ db.otps := List.mem_of_find?_eq_some ho
    have hatt : o.attempts = 0 := hz o hmem
    have hvalid : getValidOTP db e code now = some o := ho
    simp [verifyOTP, huser, hclean, hvalid, hatt, MAX_OTP_ATTEMPTS,
      Except.isOk, Except.toBool]
  · intro hlive
    have hsome : (db.otps.find? (otpValidPred e code now)).isSome = false := by
      rw [find?_isSome_eq_any]
      exact hlive
    have hvalid : getValidOTP db e code now = none := by
      unfold getValidOTP
      cases hv : db.otps.find? (otpValidPred e code now) with
      | none => rfl
      | some o => rw [hv] at hsome; simp at hsome
    simp [verifyOTP, huser, hclean, hvalid]

/-! ## C5: the OTP attempt counter is never incremented -/

/-- Every stored challenge carries `attempts = 0`: the invariant holding in
all states reachable from challenges created with the schema default. -/
def attemptsAllZero (db : DB) : Prop :=
  ∀ o ∈ db.otps, o.attempts = 0

/-- Operations that do not touch the `otps` table preserve the invariant. -/
theorem attemptsAllZero_log (db : DB) (l : SecurityLog) :
    attemptsAllZero db → attemptsAllZero (logSecurityEvent db l) :=
  fun h => h

theorem attemptsAllZero_updateFailedAttempts (db : DB) (e : String)
    (a now : Nat) :
    attemptsAllZero db → attemptsAllZero (updateFailedAttempts db e a now) :=
  fun h => h

theorem attemptsAllZero_lockUser (db : DB) (e : String) :
    attemptsAllZero db → attemptsAllZero (lockUser db e) :=
  fun h => h

theorem attemptsAllZero_unlockUser (db : DB) (e : String) :
    attemptsAllZero db → attemptsAllZero (unlockUser db e) :=
  fun h => h

theorem attemptsAllZero_updateUserLoginSuccess (db : DB) (id now : Nat) :
    attemptsAllZero db → attemptsAllZero (updateUserLoginSuccess db id now) :=
  fun h => h

/-- `createOTP` inserts a row with the schema default `attempts = 0`. -/
theorem attemptsAllZero_createOTP (db : DB) (e c : String) (x : Nat)
    (h : attemptsAllZero db) : attemptsAllZero (createOTP db e c x) := by
  intro o ho
  simp only [createOTP, List.mem_append, List.mem_singleton] at ho
  cases ho with
  | inl h2 => exact h o h2
  | inr h2 => subst h2; rfl

/-- Deleting expired rows preserves the invariant. -/
theorem attemptsAllZero_cleanup (db : DB) (now : Nat)
    (h : attemptsAllZero db) : attemptsAllZero (cleanupExpiredOTPs db now) := by
  intro o ho
  have ho' : o ∈ db.otps.filter (fun o => !decide (o.expiresAt < now)) := ho
  exact h o (List.mem_filter.mp ho').1

/-- Marking a challenge used does not change its attempt counter. -/
theorem attemptsAllZero_mark (db : DB) (id : Nat)
    (h : attemptsAllZero db) : attemptsAllZero (markOTPAsUsed db id) := by
  intro o ho
  have ho2 : o ∈ db.otps.map
      (fun o => if o.id == id then { o with isUsed := true } else o) := ho
  rcases List.mem_map.mp ho2 with ⟨o', hmem', hfo⟩
  have hae : o.attempts = o'.attempts := by
    rw [← hfo]
    by_cases hid : (o'.id == id) = true
    · rw [if_pos hid]
    · rw [if_neg hid]
  rw [hae]
  exact h o' hmem'

/-- The state component of the lockout gate never touches the `otps` table. -/
theorem otps_lockoutCheck (db : DB) (u : Account) (e : String) (now : Nat) :
    ((lockoutCheck db u e now).2).otps = db.otps := by
  unfold lockoutCheck
  split
  · split <;> rfl
  · rfl

/-- C5: no Login Guard operation increments a challenge's attempt counter —
`incrementOTPAttempts` is never invoked — so the all-zero invariant is
preserved by `initiateLogin`, `verifyOTP` and `resendOTP`, and the
`OTPAttemptsExceeded` branch of `verifyOTP` is unreachable. -/
theorem otpAttempts_never_incremented
    (db : DB) (e p oc code : String) (now : Nat) (ok : Bool)
    (hz : attemptsAllZero db) :
    attemptsAllZero (initiateLogin db e p oc now ok).2 ∧
    attemptsAllZero (verifyOTP db e code now).2 ∧
    attemptsAllZero (resendOTP db e oc now ok).2 ∧
    (verifyOTP db e code now).1 ≠ Except.error AuthError.otpAttemptsExceeded := by
  refine ⟨?_, ?_, ?_, ?_⟩
  · cases hgu : getUserByEmail db e with
    | none => simp only [initiateLogin, hgu]; exact attemptsAllZero_log _ _ hz
    | some u =>
        rcases hlc : lockoutCheck db u e now with ⟨r, db'⟩
        have hdb' : attemptsAllZero db' := by
          intro o ho
          have : db'.otps = db.otps := by
            have h2 := otps_lockoutCheck db u e now
            rw [hlc] at h2
            exact h2
          rw [this] at ho
          exact hz o ho
        cases r with
        | error err => simp only [initiateLogin, hgu, hlc]; exact hdb'
        | ok v =>
            cases hpw : bcryptCompare p u.password with
            | false =>
                simp only [initiateLogin, hgu, hlc, hpw, Bool.not_false,
                  if_true]
                split <;>
                  exact attemptsAllZero_log _ _
                    (by first
                      | exact attemptsAllZero_lockUser _ _
                          (attemptsAllZero_updateFailedAttempts _ _ _ _ hdb')
                      | exact attemptsAllZero_updateFailedAttempts _ _ _ _ hdb')
            | true =>
                simp only [initiateLogin, hgu, hlc, hpw, Bool.not_true,
                  if_false]
                cases ok with
                | false =>
                    simp only [Bool.not_false, if_true]
                    exact attemptsAllZero_createOTP _ _ _ _ hdb'
                | true =>
                    simp only [Bool.not_true, if_false]
                    exact attemptsAllZero_log _ _
                      (attemptsAllZero_createOTP _ _ _ _ hdb')
  · cases hgu : getUserByEmail (cleanupExpiredOTPs db now) e with
    | none =>
        simp only [verifyOTP, hgu]
        exact attemptsAllZero_cleanup _ _ hz
    | some u =>
        cases hv : getValidOTP (cleanupExpiredOTPs db now) e code now with
        | none =>
            simp only [verifyOTP, hgu, hv]
            exact attemptsAllZero_log _ _ (attemptsAllZero_cleanup _ _ hz)
        | some o =>
            simp only [verifyOTP, hgu, hv]
            split
            · exact attemptsAllZero_log _ _ (attemptsAllZero_cleanup _ _ hz)
            · exact attemptsAllZero_log _ _
                (attemptsAllZero_updateUserLoginSuccess _ _ _
                  (attemptsAllZero_mark _ _ (attemptsAllZero_cleanup _ _ hz)))
  · cases hgu : getUserByEmail db e with
    | none => simp only [resendOTP, hgu]; exact hz
    | some u =>
        cases ok with
        | false =>
            simp only [resendOTP, hgu, Bool.not_false, if_true]
            exact attemptsAllZero_createOTP _ _ _ _ hz
        | true =>
            simp only [resendOTP, hgu, Bool.not_true, if_false]
            exact attemptsAllZero_log _ _ (attemptsAllZero_createOTP _ _ _ _ hz)
  · cases hgu : getUserByEmail (cleanupExpiredOTPs db now) e with
    | none => simp [verifyOTP, hgu]
    | some u =>
        cases hv : getValidOTP (cleanupExpiredOTPs db now) e code now with
        | none => simp [verifyOTP, hgu, hv]
        | some o =>
            have hv' : (cleanupExpiredOTPs db now).otps.find?
                (otpValidPred e code now) = some o := hv
            have hmem : o ∈ db.otps.filter
                (fun o => !decide (o.expiresAt < now)) :=
              List.mem_of_find?_eq_some hv'
            have hatt : o.attempts = 0 := hz o (List.mem_filter.mp hmem).1
            simp [verifyOTP, hgu, hv, hatt, MAX_OTP_ATTEMPTS]

end TaskVault

namespace TaskVault

/-! ## C8: effects of a successful verification -/

/-- The by-id account updates also never change the `email` column. -/
theorem emailPredId_invariant (e : String) (k : Nat) (G : Account → Account)
    (hG : ∀ x, (G x).email = x.email) :
    ∀ x : Account,
      ((if x.id == k then G x else x).email == e) = (x.email == e) := by
  intro x
  by_cases h : (x.id == k) = true
  · simp [h, hG]
  · simp only [Bool.not_eq_true] at h
    simp [h]

/-- C8: when `verifyOTP` finds a valid challenge whose attempt counter is
below the limit, it returns the minimal user profile (id, email, first and
last name, avatar reference, lastLogin), the matched challenge is marked
used, and the account row ends with `failedAttempts = 0`,
`lastFailedAttempt` cleared and `lastLogin = now`. -/
theorem verifyOTP_success_effects
    (db : DB) (e code : String) (now : Nat) (u : Account) (o : OTPRec)
    (hu : getUserByEmail db e = some u)
    (ho : getValidOTP (cleanupExpiredOTPs db now) e code now = some o)
    (hatt : o.attempts < MAX_OTP_ATTEMPTS) :
    (verifyOTP db e code now).1 =
      Except.ok { id := u.id, email := u.email, firstName := u.firstName,
                  lastName := u.lastName,
                  profileImageUrl := u.profileImageUrl,
                  lastLogin := u.lastLogin } ∧
    { o with isUsed := true } ∈ ((verifyOTP db e code now).2).otps ∧
    getUserByEmail ((verifyOTP db e code now).2) e =
      some { u with failedAttempts := 0, lastFailedAttempt := none,
                    lastLogin := some now } := by
  have huser : getUserByEmail (cleanupExpiredOTPs db now) e = some u := hu
  have hnle : ¬ (MAX_OTP_ATTEMPTS ≤ o.attempts) := by omega
  have hfst : (verifyOTP db e code now).1 =
      Except.ok { id := u.id, email := u.email, firstName := u.firstName,
                  lastName := u.lastName,
                  profileImageUrl := u.profileImageUrl,
                  lastLogin := u.lastLogin } := by
    simp [verifyOTP, huser, ho, hnle]
  have hotps : ((verifyOTP db e code now).2).otps =
      (cleanupExpiredOTPs db now).otps.map
        (fun x => if x.id == o.id then { x with isUsed := true } else x) := by
    simp only [verifyOTP, huser, ho]
    rw [if_neg hnle]
    rfl
  have husers : ((verifyOTP db e code now).2).users =
      db.users.map (fun x => if x.id == u.id then
        { x with failedAttempts := 0, lastFailedAttempt := none,
                 lastLogin := some now } else x) := by
    simp only [verifyOTP, huser, ho]
    rw [if_neg hnle]
    rfl
  refine ⟨hfst, ?_, ?_⟩
  · have hv' : (cleanupExpiredOTPs db now).otps.find?
        (otpValidPred e code now) = some o := ho
    have hmem : o ∈ (cleanupExpiredOTPs db now).otps :=
      List.mem_of_find?_eq_some hv'
    rw [hotps]
    exact List.mem_map.mpr ⟨o, hmem, by simp⟩
  · have hu' : db.users.find? (fun x => x.email == e) = some u := hu
    have hfind := find?_map_pres
      (fun x : Account => if x.id == u.id then
        { x with failedAttempts := 0, lastFailedAttempt := none,
                 lastLogin := some now } else x)
      (fun x => x.email == e)
      (emailPredId_invariant e u.id
        (fun x => { x with failedAttempts := 0, lastFailedAttempt := none,
                           lastLogin := some now })
        (fun x => rfl))
      db.users u hu'
    unfold getUserByEmail
    rw [husers, hfind]
    simp

end TaskVault

namespace TaskVault

/-! ## C1: five wrong passwords lock the account -/

/-- One wrong-password `initiateLogin` call against an unlocked account:
it fails with `InvalidCredentials`, increments `failedAttempts`, stamps
`lastFailedAttempt`, and sets `isLocked` exactly when the new count reaches
`MAX_LOGIN_ATTEMPTS`. -/
theorem wrong_attempt_step
    (db : DB) (e p oc : String) (t : Nat) (ok : Bool) (u : Account)
    (hu : getUserByEmail db e = some u)
    (hlock : u.isLocked = false)
    (hpw : bcryptCompare p u.password = false) :
    (initiateLogin db e p oc t ok).1 =
      Except.error AuthError.invalidCredentials ∧
    getUserByEmail (initiateLogin db e p oc t ok).2 e =
      some (if MAX_LOGIN_ATTEMPTS ≤ u.failedAttempts + 1 then
              { u with failedAttempts := u.failedAttempts + 1,
                       lastFailedAttempt := some t, isLocked := true }
            else
              { u with failedAttempts := u.failedAttempts + 1,
                       lastFailedAttempt := some t }) := by
  have hchk : lockoutCheck db u e t = (Except.ok (), db) := by
    simp [lockoutCheck, hlock]
  have hu' : db.users.find? (fun x => x.email == e) = some u := hu
  have hmail : (u.email == e) = true := by simpa using List.find?_some hu'
  constructor
  · simp [initiateLogin, hu, hchk, hpw]
  · have husers : ((initiateLogin db e p oc t ok).2).users =
        (if MAX_LOGIN_ATTEMPTS ≤ u.failedAttempts + 1 then
           lockUser (updateFailedAttempts db e (u.failedAttempts + 1) t) e
         else updateFailedAttempts db e (u.failedAttempts + 1) t).users := by
      simp only [initiateLogin, hu, hchk, hpw, Bool.not_false]
      rw [if_pos trivial]
      split <;> rfl
    have h1 := find?_map_pres
      (fun x : Account => if x.email == e then
        { x with failedAttempts := u.failedAttempts + 1,
                 lastFailedAttempt := some t } else x)
      (fun x => x.email == e)
      (emailPred_invariant e
        (fun x => { x with failedAttempts := u.failedAttempts + 1,
                           lastFailedAttempt := some t })
        (fun x => rfl))
      db.users u hu'
    unfold getUserByEmail
    rw [husers]
    by_cases h5 : MAX_LOGIN_ATTEMPTS ≤ u.failedAttempts + 1
    · rw [if_pos h5, if_pos h5]
      have h2 := find?_map_pres
        (fun x : Account => if x.email == e then
          { x with isLocked := true } else x)
        (fun x => x.email == e)
        (emailPred_invariant e (fun x => { x with isLocked := true })
          (fun x => rfl))
        _ _ h1
      simp only [lockUser, updateFailedAttempts]
      rw [h2]
      simp [hmail]
    · rw [if_neg h5, if_neg h5]
      simp only [updateFailedAttempts]
      rw [h1]
      simp [hmail]

/-- While the lockout window of a locked account is open, `initiateLogin`
fails with `AccountLocked` no matter which password is supplied. -/
theorem locked_attempt_rejected
    (db : DB) (e q oc : String) (t : Nat) (ok : Bool) (u : Account) (s : Nat)
    (hu : getUserByEmail db e = some u)
    (hlock : u.isLocked = true)
    (hlast : u.lastFailedAttempt = some s)
    (hwin : t < s + lockoutDurationMs) :
    (initiateLogin db e q oc t ok).1 = Except.error AuthError.accountLocked := by
  have hcond : t < u.lastFailedAttempt.getD 0 + lockoutDurationMs := by
    rw [hlast]
    simpa using hwin
  simp [initiateLogin, hu, lockoutCheck, hlock, hcond]

/-- C1: starting from a fresh account (`failedAttempts = 0`, unlocked),
exactly `MAX_LOGIN_ATTEMPTS = 5` consecutive wrong-password `initiateLogin`
calls leave the account with `isLocked = true`, and any further
`initiateLogin` — even with the correct password — fails with
`AccountLocked` while less than `LOCKOUT_DURATION` has elapsed since
`lastFailedAttempt`. -/
theorem lockout_after_five_wrong_attempts
    (db db₁ db₂ db₃ db₄ db₅ : DB) (e p q oc : String)
    (t₁ t₂ t₃ t₄ t₅ tq : Nat) (ok okq : Bool) (u : Account)
    (hu : getUserByEmail db e = some u)
    (hfresh : u.failedAttempts = 0)
    (hlock : u.isLocked = false)
    (hpw : bcryptCompare p u.password = false)
    (h₁ : db₁ = (initiateLogin db e p oc t₁ ok).2)
    (h₂ : db₂ = (initiateLogin db₁ e p oc t₂ ok).2)
    (h₃ : db₃ = (initiateLogin db₂ e p oc t₃ ok).2)
    (h₄ : db₄ = (initiateLogin db₃ e p oc t₄ ok).2)
    (h₅ : db₅ = (initiateLogin db₄ e p oc t₅ ok).2)
    (hwin : tq < t₅ + lockoutDurationMs) :
    getUserByEmail db₅ e =
      some { u with failedAttempts := 5, lastFailedAttempt := some t₅,
                    isLocked := true } ∧
    (initiateLogin db₅ e q oc tq okq).1 =
      Except.error AuthError.accountLocked := by
  have hu1 : getUserByEmail db₁ e =
      some { u with failedAttempts := 1, lastFailedAttempt := some t₁ } := by
    have h := (wrong_attempt_step db e p oc t₁ ok u hu hlock hpw).2
    rw [← h₁, hfresh] at h
    rw [h, if_neg (by decide)]
  have hu2 : getUserByEmail db₂ e =
      some { u with failedAttempts := 2, lastFailedAttempt := some t₂ } := by
    have h := (wrong_attempt_step db₁ e p oc t₂ ok _ hu1 hlock hpw).2
    rw [← h₂] at h
    rw [h]
    simp [MAX_LOGIN_ATTEMPTS]
  have hu3 : getUserByEmail db₃ e =
      some { u with failedAttempts := 3, lastFailedAttempt := some t₃ } := by
    have h := (wrong_attempt_step db₂ e p oc t₃ ok _ hu2 hlock hpw).2
    rw [← h₃] at h
    rw [h]
    simp [MAX_LOGIN_ATTEMPTS]
  have hu4 : getUserByEmail db₄ e =
      some { u with failedAttempts := 4, lastFailedAttempt := some t₄ } := by
    have h := (wrong_attempt_step db₃ e p oc t₄ ok _ hu3 hlock hpw).2
    rw [← h₄] at h
    rw [h]
    simp [MAX_LOGIN_ATTEMPTS]
  have hu5 : getUserByEmail db₅ e =
      some { u with failedAttempts := 5, lastFailedAttempt := some t₅,
                    isLocked := true } := by
    have h := (wrong_attempt_step db₄ e p oc t₅ ok _ hu4 hlock hpw).2
    rw [← h₅] at h
    rw [h]
    simp [MAX_LOGIN_ATTEMPTS]
  exact ⟨hu5, locked_attempt_rejected db₅ e q oc tq okq _ t₅ hu5 rfl rfl hwin⟩

end TaskVault

namespace TaskVault

/-! ## C3: Security Events per terminal outcome -/

/-- The `securityLogs` projections untouched by each storage operation. -/
theorem logs_cleanupExpiredOTPs (db : DB) (now : Nat) :
    (cleanupExpiredOTPs db now).securityLogs = db.securityLogs := rfl

theorem logs_markOTPAsUsed (db : DB) (id : Nat) :
    (markOTPAsUsed db id).securityLogs = db.securityLogs := rfl

theorem logs_updateUserLoginSuccess (db : DB) (id now : Nat) :
    (updateUserLoginSuccess db id now).securityLogs = db.securityLogs := rfl

theorem logs_updateFailedAttempts (db : DB) (e : String) (a now : Nat) :
    (updateFailedAttempts db e a now).securityLogs = db.securityLogs := rfl

theorem logs_lockUser (db : DB) (e : String) :
    (lockUser db e).securityLogs = db.securityLogs := rfl

theorem logs_unlockUser (db : DB) (e : String) :
    (unlockUser db e).securityLogs = db.securityLogs := rfl

theorem logs_createOTP (db : DB) (e c : String) (x : Nat) :
    (createOTP db e c x).securityLogs = db.securityLogs := rfl

/-- A lockout-gate rejection is always `AccountLocked` and has logged
exactly one event. -/
theorem lockoutCheck_error (db : DB) (u : Account) (e : String) (now : Nat)
    (r : AuthError) (db' : DB)
    (h : lockoutCheck db u e now = (Except.error r, db')) :
    r = AuthError.accountLocked ∧
    db'.securityLogs.length = db.securityLogs.length + 1 := by
  unfold lockoutCheck at h
  split at h
  · split at h
    · rw [Prod.mk.injEq] at h
      obtain ⟨h1, h2⟩ := h
      injection h1 with h1
      subst h1
      subst h2
      exact ⟨rfl, by simp [logSecurityEvent]⟩
    · rw [Prod.mk.injEq] at h
      exact absurd h.1 (by simp)
  · rw [Prod.mk.injEq] at h
    exact absurd h.1 (by simp)

/-- A lockout-gate pass leaves the log, OTP table and id counter alone. -/
theorem lockoutCheck_ok (db : DB) (u : Account) (e : String) (now : Nat)
    (v : Unit) (db' : DB)
    (h : lockoutCheck db u e now = (Except.ok v, db')) :
    db'.securityLogs = db.securityLogs ∧ db'.otps = db.otps ∧
    db'.nextOtpId = db.nextOtpId := by
  unfold lockoutCheck at h
  split at h
  · split at h
    · rw [Prod.mk.injEq] at h
      exact absurd h.1 (by simp)
    · rw [Prod.mk.injEq] at h
      obtain ⟨-, h2⟩ := h
      subst h2
      exact ⟨rfl, rfl, rfl⟩
  · rw [Prod.mk.injEq] at h
    obtain ⟨-, h2⟩ := h
    subst h2
    exact ⟨rfl, rfl, rfl⟩

/-- How many Security Events one `initiateLogin` terminal outcome writes:
none when it is the email-dispatch failure, one otherwise. -/
def loginEventCount (r : Except AuthError LoginOk) : Nat :=
  match r with
  | Except.error AuthError.emailSendFailed => 0
  | _ => 1

/-- How many Security Events one `verifyOTP` terminal outcome writes: none
for an unknown email, one otherwise. -/
def verifyEventCount (r : Except AuthError VerifyOk) : Nat :=
  match r with
  | Except.error AuthError.userNotFound => 0
  | _ => 1

/-- A concrete state with no accounts, used against C3. -/
def dbNoUser : DB :=
  { users := [], otps := [], securityLogs := [], nextOtpId := 1 }

/-- C3 counterexample: `verifyOTP` on an unknown email is a terminal
failing outcome (`NotFound`) after which the Security Event table grew by
zero entries, not by exactly one. -/
theorem verifyOTP_notfound_writes_no_event :
    (verifyOTP dbNoUser "a@b.c" "123456" 0).1 =
      Except.error AuthError.userNotFound ∧
    ((verifyOTP dbNoUser "a@b.c" "123456" 0).2).securityLogs.length = 0 ∧
    ¬ (((verifyOTP dbNoUser "a@b.c" "123456" 0).2).securityLogs.length =
        dbNoUser.securityLogs.length + 1) :=
  ⟨rfl, rfl, by decide⟩

/-- C3 amended: every terminal outcome of `initiateLogin` writes exactly
one Security Event, except an outcome failing on email dispatch
(`NotificationDeliveryFailed`), which writes none; every terminal outcome
of `verifyOTP` writes exactly one Security Event, except the unknown-email
(`NotFound`) outcome, which writes none. -/
theorem security_event_per_outcome
    (db : DB) (e p oc code : String) (now : Nat) (ok : Bool) :
    ((initiateLogin db e p oc now ok).2).securityLogs.length =
      db.securityLogs.length +
        loginEventCount (initiateLogin db e p oc now ok).1 ∧
    ((verifyOTP db e code now).2).securityLogs.length =
      db.securityLogs.length +
        verifyEventCount (verifyOTP db e code now).1 := by
  constructor
  · cases hgu : getUserByEmail db e with
    | none => simp [initiateLogin, hgu, loginEventCount, logSecurityEvent]
    | some u =>
        rcases hlc : lockoutCheck db u e now with ⟨r, db'⟩
        cases r with
        | error err =>
            obtain ⟨rfl, hlen⟩ := lockoutCheck_error db u e now err db' hlc
            simp [initiateLogin, hgu, hlc, loginEventCount, hlen]
        | ok v =>
            obtain ⟨hlogs, -, -⟩ := lockoutCheck_ok db u e now v db' hlc
            cases hpw : bcryptCompare p u.password with
            | false =>
                by_cases hm : MAX_LOGIN_ATTEMPTS ≤ u.failedAttempts + 1 <;>
                  simp [initiateLogin, hgu, hlc, hpw, hm, loginEventCount,
                    logSecurityEvent, logs_lockUser, logs_updateFailedAttempts,
                    hlogs]
            | true =>
                cases ok with
                | false =>
                    simp [initiateLogin, hgu, hlc, hpw, loginEventCount,
                      logs_createOTP, hlogs]
                | true =>
                    simp [initiateLogin, hgu, hlc, hpw, loginEventCount,
                      logSecurityEvent, logs_createOTP, hlogs]
  · cases hgu : getUserByEmail (cleanupExpiredOTPs db now) e with
    | none =>
        simp [verifyOTP, hgu, verifyEventCount, logs_cleanupExpiredOTPs]
    | some u =>
        cases hv : getValidOTP (cleanupExpiredOTPs db now) e code now with
        | none =>
            simp [verifyOTP, hgu, hv, verifyEventCount, logSecurityEvent,
              logs_cleanupExpiredOTPs]
        | some o =>
            by_cases ha : MAX_OTP_ATTEMPTS ≤ o.attempts
            · simp [verifyOTP, hgu, hv, ha, verifyEventCount,
                logSecurityEvent, logs_cleanupExpiredOTPs]
            · simp [verifyOTP, hgu, hv, ha, verifyEventCount,
                logSecurityEvent, logs_updateUserLoginSuccess,
                logs_markOTPAsUsed, logs_cleanupExpiredOTPs]

end TaskVault

namespace TaskVault

/-! ## C4: live challenges per email -/

/-- The account present in the concrete states below. -/
def c4User : Account :=
  { id := 1, email := "a@b.c", password := "pw", firstName := none,
    lastName := none, profileImageUrl := none, isLocked := false,
    failedAttempts := 0, lastFailedAttempt := none, lastLogin := none }

/-- A concrete state holding one live (unused, unexpired at `now = 0..999`)
challenge with code `"111111"` for the account's email. -/
def c4Db : DB :=
  { users := [c4User],
    otps := [{ id := 1, email := "a@b.c", code := "111111",
               expiresAt := 1000, isUsed := false, attempts := 0 }],
    securityLogs := [], nextOtpId := 2 }

/-- How many live — unused and unexpired — challenges are stored for an
email. -/
def liveOTPCount (db : DB) (email : String) (now : Nat) : Nat :=
  (db.otps.filter (fun o =>
    o.email == email && !o.isUsed && decide (now < o.expiresAt))).length

/-- C4 counterexample: after `resendOTP` issues a fresh code, two live
challenges exist for the same email at the same time, and the older
unused, unexpired code still verifies. -/
theorem two_live_otps_after_resend :
    liveOTPCount ((resendOTP c4Db "a@b.c" "222222" 0 true).2) "a@b.c" 0 = 2 ∧
    ((verifyOTP ((resendOTP c4Db "a@b.c" "222222" 0 true).2)
        "a@b.c" "111111" 0).1).isOk = true :=
  ⟨rfl, rfl⟩

/-- C4 amended: issuing a new code does not invalidate older challenges:
`resendOTP` leaves every stored challenge unchanged and appends exactly one
fresh challenge, so several live challenges per email are reachable and an
older unused, unexpired code keeps verifying until it expires. -/
theorem resendOTP_appends_only
    (db : DB) (e oc : String) (now : Nat) (ok : Bool) (u : Account)
    (hu : getUserByEmail db e = some u) :
    ((resendOTP db e oc now ok).2).otps =
      db.otps ++ [{ id := db.nextOtpId, email := e, code := oc,
                    expiresAt := now + otpExpiryMs, isUsed := false,
                    attempts := 0 }] := by
  cases ok with
  | false => simp [resendOTP, hu, createOTP]
  | true => simp [resendOTP, hu, createOTP, logSecurityEvent]

end TaskVault

namespace TaskVault

/-! ## Concrete witness states -/

/-- The fresh-account state the C1 witness run starts from. -/
def wDb0 : DB :=
  { users := [c4User], otps := [], securityLogs := [], nextOtpId := 1 }

/-- States after each of the five wrong-password attempts of the C1
witness run. -/
def wDb1 : DB := (initiateLogin wDb0 "a@b.c" "bad" "000000" 10 true).2

def wDb2 : DB := (initiateLogin wDb1 "a@b.c" "bad" "000000" 20 true).2

def wDb3 : DB := (initiateLogin wDb2 "a@b.c" "bad" "000000" 30 true).2

def wDb4 : DB := (initiateLogin wDb3 "a@b.c" "bad" "000000" 40 true).2

def wDb5 : DB := (initiateLogin wDb4 "a@b.c" "bad" "000000" 50 true).2

/-- The challenge row stored in `c4Db`. -/
def c4Otp : OTPRec :=
  { id := 1, email := "a@b.c", code := "111111", expiresAt := 1000,
    isUsed := false, attempts := 0 }

/-- A locked account whose lockout window has elapsed by `now = 2000000`. -/
def lockedUser : Account :=
  { id := 2, email := "l@b.c", password := "pw", firstName := none,
    lastName := none, profileImageUrl := none, isLocked := true,
    failedAttempts := 5, lastFailedAttempt := some 100, lastLogin := none }

def lockedDb : DB :=
  { users := [lockedUser], otps := [], securityLogs := [], nextOtpId := 1 }

/-- A state whose only challenge for the email is expired at `now = 50`. -/
def expDb : DB :=
  { users := [c4User],
    otps := [{ id := 1, email := "a@b.c", code := "111111", expiresAt := 10,
               isUsed := false, attempts := 0 }],
    securityLogs := [], nextOtpId := 2 }

/-- Witness for C1: the concrete five-wrong-attempts run locks the account
and the sixth call with the correct password is rejected. -/
theorem lockout_after_five_wrong_attempts_witness :
    getUserByEmail wDb5 "a@b.c" =
      some { c4User with failedAttempts := 5, lastFailedAttempt := some 50,
                         isLocked := true } ∧
    (initiateLogin wDb5 "a@b.c" "pw" "000000" 60 true).1 =
      Except.error AuthError.accountLocked :=
  lockout_after_five_wrong_attempts wDb0 wDb1 wDb2 wDb3 wDb4 wDb5
    "a@b.c" "bad" "pw" "000000" 10 20 30 40 50 60 true true c4User
    rfl rfl rfl rfl rfl rfl rfl rfl rfl (by decide)

/-- Witness for C2 at a concrete state with one live challenge. -/
theorem verifyOTP_success_iff_live_witness :
    (hasLiveOTP c4Db "a@b.c" "111111" 5 = true →
      ((verifyOTP c4Db "a@b.c" "111111" 5).1).isOk = true) ∧
    (hasLiveOTP c4Db "a@b.c" "111111" 5 = false →
      (verifyOTP c4Db "a@b.c" "111111" 5).1 =
        Except.error AuthError.invalidOrExpiredOTP) :=
  verifyOTP_success_iff_live c4Db "a@b.c" "111111" 5 c4User rfl (by decide)

/-- Witness for the amended C4 at a concrete state. -/
theorem resendOTP_appends_only_witness :
    ((resendOTP c4Db "a@b.c" "333333" 7 true).2).otps =
      c4Db.otps ++ [{ id := c4Db.nextOtpId, email := "a@b.c",
                      code := "333333", expiresAt := 7 + otpExpiryMs,
                      isUsed := false, attempts := 0 }] :=
  resendOTP_appends_only c4Db "a@b.c" "333333" 7 true c4User rfl

/-- Witness for C5 at a concrete all-zero state. -/
theorem otpAttempts_never_incremented_witness :
    attemptsAllZero (initiateLogin c4Db "a@b.c" "pw" "999999" 3 true).2 ∧
    attemptsAllZero (verifyOTP c4Db "a@b.c" "111111" 3).2 ∧
    attemptsAllZero (resendOTP c4Db "a@b.c" "999999" 3 true).2 ∧
    (verifyOTP c4Db "a@b.c" "111111" 3).1 ≠
      Except.error AuthError.otpAttemptsExceeded :=
  otpAttempts_never_incremented c4Db "a@b.c" "pw" "999999" "111111" 3 true
    (by unfold attemptsAllZero; decide)

/-- Witness for C6: a concrete unknown-email run and a concrete
wrong-password run produce the same error. -/
theorem initiateLogin_unknown_email_indistinguishable_witness :
    (initiateLogin dbNoUser "x@y.z" "p" "000000" 0 true).1 =
      Except.error AuthError.invalidCredentials ∧
    (initiateLogin c4Db "a@b.c" "wrong" "000000" 0 true).1 =
      Except.error AuthError.invalidCredentials ∧
    AuthError.message AuthError.invalidCredentials = "Invalid credentials" :=
  initiateLogin_unknown_email_indistinguishable dbNoUser c4Db "x@y.z" "a@b.c"
    "p" "wrong" "000000" "000000" 0 0 true true c4User rfl rfl rfl rfl

/-- Witness for C7 at a concrete locked account with elapsed window. -/
theorem initiateLogin_expired_lockout_cleared_witness :
    lockoutCheck lockedDb lockedUser "l@b.c" 2000000 =
      (Except.ok (), unlockUser lockedDb "l@b.c") ∧
    getUserByEmail (unlockUser lockedDb "l@b.c") "l@b.c" =
      some { lockedUser with isLocked := false, failedAttempts := 0,
                             lastFailedAttempt := none } ∧
    (initiateLogin lockedDb "l@b.c" "pw" "000000" 2000000 true).1 ≠
      Except.error AuthError.accountLocked :=
  initiateLogin_expired_lockout_cleared lockedDb "l@b.c" "pw" "000000"
    2000000 true lockedUser 100 rfl rfl rfl (by decide)

/-- Witness for C8 at a concrete successful verification. -/
theorem verifyOTP_success_effects_witness :
    (verifyOTP c4Db "a@b.c" "111111" 5).1 =
      Except.ok { id := c4User.id, email := c4User.email,
                  firstName := c4User.firstName, lastName := c4User.lastName,
                  profileImageUrl := c4User.profileImageUrl,
                  lastLogin := c4User.lastLogin } ∧
    { c4Otp with isUsed := true } ∈
      ((verifyOTP c4Db "a@b.c" "111111" 5).2).otps ∧
    getUserByEmail ((verifyOTP c4Db "a@b.c" "111111" 5).2) "a@b.c" =
      some { c4User with failedAttempts := 0, lastFailedAttempt := none,
                         lastLogin := some 5 } :=
  verifyOTP_success_effects c4Db "a@b.c" "111111" 5 c4User c4Otp rfl rfl
    (by decide)

/-- Witness for C9 at a concrete expired challenge. -/
theorem verifyOTP_expired_code_frame_witness :
    (verifyOTP expDb "a@b.c" "111111" 50).1 =
      Except.error AuthError.invalidOrExpiredOTP ∧
    ((verifyOTP expDb "a@b.c" "111111" 50).2).users = expDb.users :=
  verifyOTP_expired_code_frame expDb "a@b.c" "111111" 50 c4User rfl
    (by decide)

end TaskVault
